import Mathlib

/-!
Verification of the Multilingual-sentiment-analysis repository.

The development shallowly embeds the pure logic of the repository:

* `sentiment_analyzer.py`: label normalization (`normalize_sentiment_labels`)
  and the sentiment entry point (`analyze_sentiment`);
* `simple_app.py`: the rule-based fallback classifier
  (`simple_sentiment_analysis`) and the script-counting language detector
  (`detect_language_simple`), plus the CSV batch column selection;
* `language_detector.py`: `detect_language`.

Python dictionaries are embedded as insertion-ordered association lists,
Python floats as rationals, Python strings as Lean strings with helper
functions (`pyUpper`, `pyLower`, `pyContains`, `pyStrip`) mirroring the
string methods the code uses.  External classifiers (the HuggingFace
pipeline, langdetect) are parameters of type `String → Option _`, where
`none` models a raised exception.
-/

namespace MultiLingSentiment

/-! ### Python string primitives -/

/-- Embedding of the Python expression `s.upper()` (ASCII case mapping,
which covers every label and keyword occurring in the repository). -/
def pyUpper (s : String) : String := ⟨s.data.map Char.toUpper⟩

/-- Embedding of the Python expression `s.lower()`. -/
def pyLower (s : String) : String := ⟨s.data.map Char.toLower⟩

/-- Embedding of the Python expression `needle in hay` on strings:
substring containment. -/
def pyContains (needle hay : String) : Bool := decide (needle.data <:+: hay.data)

/-- Embedding of the Python expression `s.strip()`: remove whitespace from
both ends. -/
def pyStrip (s : String) : String :=
  ⟨(((s.data.dropWhile Char.isWhitespace).reverse.dropWhile Char.isWhitespace).reverse)⟩

/-! ### Python dict primitives (insertion-ordered association lists) -/

/-- Embedding of `d.get(k)` / `d[k]` lookup: value at the first matching
key, if any. -/
def dictGet {α : Type} (d : List (String × α)) (k : String) : Option α :=
  (d.find? (fun kv => kv.1 = k)).map (fun kv => kv.2)

/-- Embedding of `d[k] = v`: overwrite the first binding of `k` in place,
or append a new binding at the end (Python dicts preserve insertion
order). -/
def dictSet {α : Type} : List (String × α) → String → α → List (String × α)
  | [], k, v => [(k, v)]
  | (k', v') :: rest, k, v =>
    if k' = k then (k, v) :: rest else (k', v') :: dictSet rest k v

/-- Sum of all values of the association list (`sum(d.values())`). -/
def sumVals (d : List (String × ℚ)) : ℚ := (d.map (fun kv => kv.2)).sum

/-! ### Label normalization (`sentiment_analyzer.py`, `_normalize_sentiment_labels`) -/

/-- The branch structure of the per-result classification inside
`_normalize_sentiment_labels`: which canonical key receives the score of a
raw label.  `label` is the uppercased raw label, exactly as in the Python
code, which uppercases the raw label first, and the fallback tests run on
`label.lower()`. -/
def classifyLabel (rawLabel : String) : String :=
  let label := pyUpper rawLabel
  if label ∈ ["POSITIVE", "POS", "LABEL_2", "5 STARS", "4 STARS"] then "POSITIVE"
  else if label ∈ ["NEGATIVE", "NEG", "LABEL_0", "1 STAR", "2 STARS"] then "NEGATIVE"
  else if label ∈ ["NEUTRAL", "NEU", "LABEL_1", "3 STARS"] then "NEUTRAL"
  else if pyContains "positive" (pyLower label) || pyContains "pos" (pyLower label) then
    "POSITIVE"
  else if pyContains "negative" (pyLower label) || pyContains "neg" (pyLower label) then
    "NEGATIVE"
  else "NEUTRAL"

/-- One iteration of the accumulation loop:
`normalized_scores[key] = normalized_scores.get(key, 0) + score`. -/
def normStep (scores : List (String × ℚ)) (result : String × ℚ) : List (String × ℚ) :=
  let key := classifyLabel result.1
  dictSet scores key (((dictGet scores key).getD 0) + result.2)

/-- The final loop of `_normalize_sentiment_labels`: ensure a key exists,
defaulting it to `0.0`. -/
def ensureKey (scores : List (String × ℚ)) (k : String) : List (String × ℚ) :=
  if (dictGet scores k).isSome then scores else dictSet scores k 0

/-- Embedding of `_normalize_sentiment_labels`: accumulate every raw
`(label, score)` pair into its canonical bucket, then make sure all three
canonical keys are present. -/
def normalize_sentiment_labels (results : List (String × ℚ)) : List (String × ℚ) :=
  ["POSITIVE", "NEGATIVE", "NEUTRAL"].foldl ensureKey (results.foldl normStep [])

/-! ### Sentiment entry point (`sentiment_analyzer.py`, `analyze_sentiment`) -/

/-- Result dictionary of `SentimentAnalyzer.analyze_sentiment`. -/
structure SentimentResult where
  sentiment : String
  confidence : ℚ
  all_scores : List (String × ℚ)
  error : Option String
deriving DecidableEq, Repr

/-- One step of the Python call
`max(normalized_scores.items(), key=lambda x: x[1])`: keep the current
maximum unless the next item has a strictly larger score (so ties keep the
earliest item, as Python max does). -/
def maxItemStep (m p : String × ℚ) : String × ℚ := if p.2 > m.2 then p else m

/-- The degraded result returned by the `except` branch of
`analyze_sentiment` (and, with its own message, by the empty-text
short-circuit): NEUTRAL, zero confidence, neutral-only score distribution,
error populated. -/
def degradedSentimentResult (msg : String) : SentimentResult :=
  { sentiment := "NEUTRAL"
    confidence := 0
    all_scores := [("POSITIVE", 0), ("NEGATIVE", 0), ("NEUTRAL", 1)]
    error := some msg }

/-- The text preparation of `analyze_sentiment`: `text = text.strip()`
followed by `if len(text) > 512: text = text[:512]`. -/
def truncInput (text : String) : String :=
  let t := pyStrip text
  if t.length > 512 then t.take 512 else t

/-- Embedding of `SentimentAnalyzer.analyze_sentiment`.  The underlying
HuggingFace pipeline is the parameter `classifier`; `none` models a raised
exception, which the `except` branch turns into a degraded result.  An
empty result list also lands in the `except` branch, because
`results[0]` raises `IndexError` there.  (The Python
`isinstance(results[0], list)` unwrapping is representation glue with no
counterpart in the typed embedding.) -/
def analyze_sentiment (classifier : String → Option (List (String × ℚ)))
    (text : String) : SentimentResult :=
  if text = "" || pyStrip text = "" then
    degradedSentimentResult "Empty text provided"
  else
    match classifier (truncInput text) with
    | none => degradedSentimentResult "Error analyzing sentiment"
    | some [] => degradedSentimentResult "Error analyzing sentiment"
    | some (r :: rs) =>
      match normalize_sentiment_labels (r :: rs) with
      | [] => degradedSentimentResult "Error analyzing sentiment"
      | n :: ns =>
        let m := ns.foldl maxItemStep n
        { sentiment := m.1
          confidence := m.2 * 100
          all_scores := n :: ns
          error := none }

/-! ### Rule-based fallback classifier (`simple_app.py`, `simple_sentiment_analysis`) -/

/-- The configured positive keywords of `simple_sentiment_analysis`. -/
def positive_words : List String :=
  ["good", "great", "excellent", "amazing", "wonderful", "fantastic", "awesome",
   "love", "like", "happy", "best", "perfect", "brilliant", "outstanding",
   "superb", "marvelous", "terrific", "fabulous",
   "accha", "achha", "bahut", "sundar", "khushi", "prasanna", "uttam", "shandar",
   "bagundi", "manchidi", "santosham", "bavundi", "chala", "bagunna"]

/-- The configured negative keywords of `simple_sentiment_analysis`. -/
def negative_words : List String :=
  ["bad", "terrible", "awful", "horrible", "hate", "dislike", "sad", "angry",
   "worst", "poor", "disappointing", "disgusting", "pathetic", "useless",
   "annoying", "frustrating",
   "bura", "kharab", "ganda", "dukh", "pareshani", "galat", "bekaar",
   "chedu", "daridram", "kastam", "badha", "kopam", "vishaadam"]

/-- Result dictionary of `simple_sentiment_analysis`.  The Python function
returns a two-key dictionary on the empty-text branch and a four-key one
otherwise; the optional fields model the keys that may be absent. -/
structure SimpleSentimentResult where
  sentiment : String
  confidence : ℚ
  positive_score : Option ℕ
  negative_score : Option ℕ
deriving DecidableEq, Repr

/-- Number of configured positive keywords contained in the lowercased
text (`sum(1 for word in positive_words if word in text)`). -/
def positiveCount (text : String) : ℕ :=
  positive_words.countP (fun word => pyContains word (pyLower text))

/-- Number of configured negative keywords contained in the lowercased
text. -/
def negativeCount (text : String) : ℕ :=
  negative_words.countP (fun word => pyContains word (pyLower text))

/-- Embedding of `simple_sentiment_analysis` from `simple_app.py`. -/
def simple_sentiment_analysis (text : String) : SimpleSentimentResult :=
  if text = "" then
    { sentiment := "NEUTRAL", confidence := 0, positive_score := none, negative_score := none }
  else
    let positive_count := positiveCount text
    let negative_count := negativeCount text
    if positive_count > negative_count then
      { sentiment := "POSITIVE"
        confidence := ((min 90 (60 + (positive_count - negative_count) * 10) : ℕ) : ℚ)
        positive_score := some positive_count
        negative_score := some negative_count }
    else if negative_count > positive_count then
      { sentiment := "NEGATIVE"
        confidence := ((min 90 (60 + (negative_count - positive_count) * 10) : ℕ) : ℚ)
        positive_score := some positive_count
        negative_score := some negative_count }
    else
      { sentiment := "NEUTRAL"
        confidence := 50
        positive_score := some positive_count
        negative_score := some negative_count }

/-! ### Script-counting language detector (`simple_app.py`, `detect_language_simple`) -/

/-- Result dictionary of `detect_language_simple`. -/
structure SimpleLanguageResult where
  language : String
  confidence : ℚ
deriving DecidableEq, Repr

/-- Count of ASCII letters (`c.isascii() and c.isalpha()`). -/
def englishChars (text : String) : ℕ :=
  text.data.countP (fun c => c.toNat ≤ 127 && c.isAlpha)

/-- Count of Devanagari characters (`'ऀ' <= c <= 'ॿ'`). -/
def hindiChars (text : String) : ℕ :=
  text.data.countP (fun c => 'ऀ' ≤ c && c ≤ 'ॿ')

/-- Count of Telugu characters (`'ఀ' <= c <= '౿'`). -/
def teluguChars (text : String) : ℕ :=
  text.data.countP (fun c => 'ఀ' ≤ c && c ≤ '౿')

/-- Embedding of `detect_language_simple` from `simple_app.py`. -/
def detect_language_simple (text : String) : SimpleLanguageResult :=
  if text = "" then { language := "Unknown", confidence := 0 }
  else
    let english_chars := englishChars text
    let hindi_chars := hindiChars text
    let telugu_chars := teluguChars text
    let total_chars := english_chars + hindi_chars + telugu_chars
    if total_chars = 0 then { language := "Unknown", confidence := 0 }
    else if hindi_chars > english_chars ∧ hindi_chars > telugu_chars then
      { language := "Hindi", confidence := ((hindi_chars : ℚ) / total_chars) * 100 }
    else if telugu_chars > english_chars ∧ telugu_chars > hindi_chars then
      { language := "Telugu", confidence := ((telugu_chars : ℚ) / total_chars) * 100 }
    else
      { language := "English", confidence := ((english_chars : ℚ) / total_chars) * 100 }

/-! ### Statistical language detector (`language_detector.py`, `detect_language`) -/

/-- The `language_names` table of `LanguageDetector.__init__`, mapping
langdetect codes to display names. -/
def language_names : List (String × String) :=
  [("en", "English"), ("hi", "Hindi"), ("te", "Telugu"), ("ta", "Tamil"),
   ("kn", "Kannada"), ("ml", "Malayalam"), ("bn", "Bengali"), ("gu", "Gujarati"),
   ("mr", "Marathi"), ("pa", "Punjabi"), ("or", "Odia"), ("as", "Assamese"),
   ("ur", "Urdu"), ("ne", "Nepali"), ("si", "Sinhala"), ("my", "Myanmar"),
   ("th", "Thai"), ("vi", "Vietnamese"), ("id", "Indonesian"), ("ms", "Malay"),
   ("tl", "Filipino"), ("zh-cn", "Chinese (Simplified)"),
   ("zh-tw", "Chinese (Traditional)"), ("ja", "Japanese"), ("ko", "Korean"),
   ("ar", "Arabic"), ("fa", "Persian"), ("he", "Hebrew"), ("tr", "Turkish"),
   ("ru", "Russian"), ("uk", "Ukrainian"), ("bg", "Bulgarian"), ("hr", "Croatian"),
   ("cs", "Czech"), ("da", "Danish"), ("nl", "Dutch"), ("et", "Estonian"),
   ("fi", "Finnish"), ("fr", "French"), ("de", "German"), ("el", "Greek"),
   ("hu", "Hungarian"), ("is", "Icelandic"), ("ga", "Irish"), ("it", "Italian"),
   ("lv", "Latvian"), ("lt", "Lithuanian"), ("mk", "Macedonian"), ("mt", "Maltese"),
   ("no", "Norwegian"), ("pl", "Polish"), ("pt", "Portuguese"), ("ro", "Romanian"),
   ("sk", "Slovak"), ("sl", "Slovenian"), ("es", "Spanish"), ("sv", "Swedish"),
   ("cy", "Welsh")]

/-- The `supported_languages` table: languages supported for sentiment
analysis. -/
def supported_languages : List (String × String) :=
  [("en", "English"), ("hi", "Hindi"), ("te", "Telugu")]

/-- One entry of the `all_detections` list: display name, code,
probability. -/
structure Detection where
  language : String
  language_code : String
  confidence : ℚ
deriving DecidableEq, Repr

/-- Result dictionary of `LanguageDetector.detect_language`.  The error
branches of the Python function return dictionaries without the
`all_detections` key; that absent key is modelled by `none`. -/
structure LanguageResult where
  language : String
  language_code : String
  confidence : ℚ
  is_supported : Bool
  all_detections : Option (List Detection)
  error : Option String
deriving DecidableEq, Repr

/-- The degraded result shared by the empty-text, empty-detection and
`except` branches of `detect_language`: Unknown language, zero
confidence, unsupported, error populated. -/
def degradedLanguageResult (msg : String) : LanguageResult :=
  { language := "Unknown"
    language_code := "unknown"
    confidence := 0
    is_supported := false
    all_detections := none
    error := some msg }

/-- Embedding of `LanguageDetector.detect_language`.  The langdetect call
`detect_langs(text)` is the parameter `detector`, returning a probability-
ordered list of `(code, prob)` pairs; `none` models a raised exception
(`LangDetectError` or any other), which the `except` branches turn into a
degraded result. -/
def detect_language (detector : String → Option (List (String × ℚ)))
    (text : String) : LanguageResult :=
  if text = "" || pyStrip text = "" then
    degradedLanguageResult "Empty text provided"
  else
    match detector (pyStrip text) with
    | none => degradedLanguageResult "Language detection error"
    | some [] => degradedLanguageResult "Could not detect language"
    | some (top :: rest) =>
      let language_code := top.1
      let confidence := top.2
      let language_name :=
        (dictGet language_names language_code).getD ("Unknown (" ++ language_code ++ ")")
      { language := language_name
        language_code := language_code
        confidence := confidence
        is_supported := (dictGet supported_languages language_code).isSome
        all_detections := some (((top :: rest).take 3).map (fun lang =>
          { language := (dictGet language_names lang.1).getD ("Unknown (" ++ lang.1 ++ ")")
            language_code := lang.1
            confidence := lang.2 }))
        error := none }

/-! ### Batch CSV analysis (`app.py`, `analyze_batch_text`) -/

/-- One row of the batch result table assembled by `analyze_batch_text`. -/
structure BatchRow where
  Original_Text : String
  Detected_Language : String
  Language_Confidence : ℚ
  Sentiment : String
  Sentiment_Confidence : ℚ
  Positive_Score : ℚ
  Neutral_Score : ℚ
  Negative_Score : ℚ
  Error : Option String
deriving DecidableEq, Repr

/-- The per-row body of the loop in `analyze_batch_text`: detect the
language and analyze the sentiment of one text and assemble the result
record. -/
def batchRowOf (detector classifier : String → Option (List (String × ℚ)))
    (text : String) : BatchRow :=
  let detected_language := detect_language detector text
  let sentiment_result := analyze_sentiment classifier text
  { Original_Text := text
    Detected_Language := detected_language.language
    Language_Confidence := detected_language.confidence
    Sentiment := if sentiment_result.error = none then sentiment_result.sentiment else "ERROR"
    Sentiment_Confidence := if sentiment_result.error = none then sentiment_result.confidence else 0
    Positive_Score :=
      if sentiment_result.error = none then
        (dictGet sentiment_result.all_scores "POSITIVE").getD 0
      else 0
    Neutral_Score :=
      if sentiment_result.error = none then
        (dictGet sentiment_result.all_scores "NEUTRAL").getD 0
      else 0
    Negative_Score :=
      if sentiment_result.error = none then
        (dictGet sentiment_result.all_scores "NEGATIVE").getD 0
      else 0
    Error := sentiment_result.error }

/-- The column selection of `analyze_batch_text` (identical in
`simple_app.py`): all column names containing the substring `"text"`
case-insensitively, in column order. -/
def textColumns (cols : List String) : List String :=
  cols.filter (fun col => pyContains "text" (pyLower col))

/-- Embedding of `analyze_batch_text` from `app.py`.  A CSV is a list of
column names plus one association list per row; `none` is the early
return with the missing-column error message, before any row is
processed. -/
def analyze_batch_text (detector classifier : String → Option (List (String × ℚ)))
    (cols : List String) (rows : List (List (String × String))) :
    Option (List BatchRow) :=
  match textColumns cols with
  | [] => none
  | text_column :: _ =>
    some (rows.map (fun row =>
      batchRowOf detector classifier ((dictGet row text_column).getD "")))

end MultiLingSentiment

namespace MultiLingSentiment

theorem dictGet_dictSet_self {α : Type} (d : List (String × α)) (k : String) (v : α) :
    dictGet (dictSet d k v) k = some v := by
  induction d with
  | nil => simp [dictGet, dictSet]
  | cons kv rest ih =>
    obtain ⟨k', v'⟩ := kv
    by_cases h : k' = k
    · simp [dictSet, h, dictGet]
    · simpa [dictSet, h, dictGet, List.find?_cons_of_neg] using ih

theorem dictGet_dictSet_ne {α : Type} (d : List (String × α)) (k k' : String) (v : α)
    (h : k' ≠ k) : dictGet (dictSet d k v) k' = dictGet d k' := by
  induction d with
  | nil => simp [dictGet, dictSet, Ne.symm h]
  | cons kv rest ih =>
    obtain ⟨a, b⟩ := kv
    by_cases ha : a = k
    · subst ha
      simp [dictSet, dictGet, List.find?_cons_of_neg, Ne.symm h]
    · by_cases hb : a = k'
      · subst hb
        simp [dictSet, ha, dictGet]
      · simpa [dictSet, ha, dictGet, hb] using ih

theorem sumVals_dictSet (d : List (String × ℚ)) (k : String) (v : ℚ) :
    sumVals (dictSet d k v) = sumVals d - (dictGet d k).getD 0 + v := by
  induction d with
  | nil => simp [sumVals, dictSet, dictGet]
  | cons kv rest ih =>
    obtain ⟨a, b⟩ := kv
    by_cases ha : a = k
    · subst ha
      simp [dictSet, dictGet, sumVals]
      ring
    · simp [dictSet, ha, dictGet, sumVals, List.find?_cons_of_neg] at ih ⊢
      rw [ih]
      ring

theorem dictGet_eq_none {α : Type} (d : List (String × α)) (k : String)
    (h : k ∉ d.map Prod.fst) : dictGet d k = none := by
  unfold dictGet
  rw [List.find?_eq_none.2]
  · rfl
  · intro x hx
    simp only [decide_eq_true_eq]
    intro hk
    exact h (List.mem_map.2 ⟨x, hx, hk⟩)

theorem dictGet_isSome_iff {α : Type} (d : List (String × α)) (k : String) :
    (dictGet d k).isSome = true ↔ k ∈ d.map Prod.fst := by
  unfold dictGet
  simp only [Option.isSome_map', List.find?_isSome, List.mem_map]
  constructor
  · rintro ⟨x, hx, hk⟩
    exact ⟨x, hx, by simpa using hk⟩
  · rintro ⟨x, hx, hk⟩
    exact ⟨x, hx, by simpa using hk⟩

theorem mem_keys_dictSet {α : Type} (d : List (String × α)) (k x : String) (v : α) :
    x ∈ (dictSet d k v).map Prod.fst ↔ x ∈ d.map Prod.fst ∨ x = k := by
  induction d with
  | nil => simp [dictSet]
  | cons kv rest ih =>
    obtain ⟨a, b⟩ := kv
    by_cases ha : a = k
    · subst ha
      simp [dictSet]
      tauto
    · simp [dictSet, ha] at ih ⊢
      tauto

theorem nodup_keys_dictSet {α : Type} (d : List (String × α)) (k : String) (v : α)
    (h : (d.map Prod.fst).Nodup) : ((dictSet d k v).map Prod.fst).Nodup := by
  induction d with
  | nil => simp [dictSet]
  | cons kv rest ih =>
    obtain ⟨a, b⟩ := kv
    simp only [List.map_cons, List.nodup_cons] at h
    by_cases ha : a = k
    · subst ha
      simpa [dictSet] using h
    · rw [show dictSet ((a, b) :: rest) k v = (a, b) :: dictSet rest k v by simp [dictSet, ha]]
      refine List.nodup_cons.2 ⟨?_, ih h.2⟩
      intro hmem
      rcases (mem_keys_dictSet rest k a v).1 (by simpa using hmem) with h1 | h1
      · exact h.1 h1
      · exact ha h1

theorem dictGet_of_mem (d : List (String × ℚ)) (p : String × ℚ)
    (hmem : p ∈ d) (hnd : (d.map Prod.fst).Nodup) : dictGet d p.1 = some p.2 := by
  induction d with
  | nil => simp at hmem
  | cons kv rest ih =>
    simp only [List.map_cons, List.nodup_cons] at hnd
    rcases List.mem_cons.1 hmem with h | h
    · subst h
      simp [dictGet]
    · have hne : kv.1 ≠ p.1 := by
        intro hh
        exact hnd.1 (hh ▸ List.mem_map.2 ⟨p, h, rfl⟩)
      simpa [dictGet, List.find?_cons_of_neg, hne] using ih h hnd.2

end MultiLingSentiment

namespace MultiLingSentiment

theorem classifyLabel_mem (l : String) :
    classifyLabel l ∈ ["POSITIVE", "NEGATIVE", "NEUTRAL"] := by
  unfold classifyLabel
  simp only []
  split
  · simp
  split
  · simp
  split
  · simp
  split
  · simp
  split <;> simp

theorem sumVals_normStep (d : List (String × ℚ)) (r : String × ℚ) :
    sumVals (normStep d r) = sumVals d + r.2 := by
  unfold normStep
  rw [sumVals_dictSet]
  ring

theorem sumVals_normFold (rs : List (String × ℚ)) (d : List (String × ℚ)) :
    sumVals (rs.foldl normStep d) = sumVals d + (rs.map Prod.snd).sum := by
  induction rs generalizing d with
  | nil => simp
  | cons r rest ih =>
    simp only [List.foldl_cons, List.map_cons, List.sum_cons]
    rw [ih, sumVals_normStep]
    ring

theorem mem_keys_normFold (rs : List (String × ℚ)) (d : List (String × ℚ)) (x : String)
    (hx : x ∈ (rs.foldl normStep d).map Prod.fst) :
    x ∈ d.map Prod.fst ∨ x ∈ ["POSITIVE", "NEGATIVE", "NEUTRAL"] := by
  induction rs generalizing d with
  | nil => exact Or.inl hx
  | cons r rest ih =>
    rcases ih (normStep d r) hx with h | h
    · rcases (mem_keys_dictSet d (classifyLabel r.1) x _).1 h with h1 | h1
      · exact Or.inl h1
      · exact Or.inr (h1 ▸ classifyLabel_mem r.1)
    · exact Or.inr h

theorem nodup_keys_normFold (rs : List (String × ℚ)) (d : List (String × ℚ))
    (h : (d.map Prod.fst).Nodup) : ((rs.foldl normStep d).map Prod.fst).Nodup := by
  induction rs generalizing d with
  | nil => exact h
  | cons r rest ih =>
    exact ih (normStep d r) (nodup_keys_dictSet d (classifyLabel r.1) _ h)

theorem dictGet_normFold_untouched (rs : List (String × ℚ)) (d : List (String × ℚ))
    (k : String) (h : ∀ r ∈ rs, classifyLabel r.1 ≠ k) :
    dictGet (rs.foldl normStep d) k = dictGet d k := by
  induction rs generalizing d with
  | nil => rfl
  | cons r rest ih =>
    rw [List.foldl_cons, ih (normStep d r) (fun x hx => h x (List.mem_cons_of_mem r hx))]
    exact dictGet_dictSet_ne d _ k _ (fun hh => h r (List.mem_cons_self r rest) hh.symm)

end MultiLingSentiment

namespace MultiLingSentiment

theorem sumVals_ensureKey (d : List (String × ℚ)) (k : String) :
    sumVals (ensureKey d k) = sumVals d := by
  unfold ensureKey
  split
  · rfl
  · rename_i h
    rw [sumVals_dictSet]
    rcases Option.isNone_iff_eq_none.1 (by simpa using h) with h2
    rw [h2]
    simp

theorem dictGet_ensureKey_isSome (d : List (String × ℚ)) (k : String) :
    (dictGet (ensureKey d k) k).isSome := by
  unfold ensureKey
  split
  · assumption
  · simp [dictGet_dictSet_self]

theorem dictGet_ensureKey_ne (d : List (String × ℚ)) (k k' : String) (h : k' ≠ k) :
    dictGet (ensureKey d k) k' = dictGet d k' := by
  unfold ensureKey
  split
  · rfl
  · exact dictGet_dictSet_ne d k k' 0 h

theorem dictGet_ensureKey_of_isSome (d : List (String × ℚ)) (k k' : String)
    (h : (dictGet d k').isSome) : dictGet (ensureKey d k) k' = dictGet d k' := by
  by_cases hk : k' = k
  · subst hk
    unfold ensureKey
    split
    · rfl
    · simp_all
  · exact dictGet_ensureKey_ne d k k' hk

theorem dictGet_ensureKey_of_none (d : List (String × ℚ)) (k : String)
    (h : dictGet d k = none) : dictGet (ensureKey d k) k = some 0 := by
  unfold ensureKey
  rw [h]
  simp [dictGet_dictSet_self]

theorem mem_keys_ensureKey (d : List (String × ℚ)) (k x : String)
    (hx : x ∈ (ensureKey d k).map Prod.fst) : x ∈ d.map Prod.fst ∨ x = k := by
  unfold ensureKey at hx
  split at hx
  · exact Or.inl hx
  · exact (mem_keys_dictSet d k x 0).1 hx

theorem nodup_keys_ensureKey (d : List (String × ℚ)) (k : String)
    (h : (d.map Prod.fst).Nodup) : ((ensureKey d k).map Prod.fst).Nodup := by
  unfold ensureKey
  split
  · exact h
  · exact nodup_keys_dictSet d k 0 h

end MultiLingSentiment

namespace MultiLingSentiment

theorem dictGet_cons {α : Type} (a : String) (b : α) (rest : List (String × α)) (k : String) :
    dictGet ((a, b) :: rest) k = if a = k then some b else dictGet rest k := by
  by_cases h : a = k <;> simp [dictGet, h, List.find?_cons_of_neg]

theorem sumVals_eq_three (d : List (String × ℚ))
    (hsub : ∀ x ∈ d.map Prod.fst, x ∈ ["POSITIVE", "NEGATIVE", "NEUTRAL"])
    (hnd : (d.map Prod.fst).Nodup) :
    sumVals d = (dictGet d "POSITIVE").getD 0 + (dictGet d "NEGATIVE").getD 0
      + (dictGet d "NEUTRAL").getD 0 := by
  induction d with
  | nil => simp [sumVals, dictGet]
  | cons kv rest ih =>
    obtain ⟨a, b⟩ := kv
    simp only [List.map_cons, List.nodup_cons] at hnd
    have hrest := ih (fun x hx => hsub x (by simp [hx])) hnd.2
    have hna : dictGet rest a = none := dictGet_eq_none rest a hnd.1
    have hsum : sumVals ((a, b) :: rest) = b + sumVals rest := by simp [sumVals]
    have hme : a = "POSITIVE" ∨ a = "NEGATIVE" ∨ a = "NEUTRAL" := by
      simpa using hsub a (by simp)
    rcases hme with h | h | h
    all_goals subst h
    all_goals rw [hsum, hrest]
    all_goals simp [dictGet_cons, hna]
    all_goals ring

theorem foldl_maxItemStep_mem (n : String × ℚ) (ns : List (String × ℚ)) :
    ns.foldl maxItemStep n ∈ n :: ns := by
  induction ns generalizing n with
  | nil => simp
  | cons r rest ih =>
    rw [List.foldl_cons]
    rcases List.mem_cons.1 (ih (maxItemStep n r)) with h | h
    · rw [h]
      have hcase : maxItemStep n r = r ∨ maxItemStep n r = n := by
        unfold maxItemStep
        split
        · exact Or.inl rfl
        · exact Or.inr rfl
      rcases hcase with h2 | h2 <;> rw [h2] <;> simp
    · simp [List.mem_cons_of_mem, h]

theorem foldl_maxItemStep_ge (n : String × ℚ) (ns : List (String × ℚ)) :
    ∀ p ∈ n :: ns, p.2 ≤ (ns.foldl maxItemStep n).2 := by
  induction ns generalizing n with
  | nil => simp
  | cons r rest ih =>
    intro p hp
    have hstep : n.2 ≤ (maxItemStep n r).2 ∧ r.2 ≤ (maxItemStep n r).2 := by
      unfold maxItemStep
      split
      · constructor
        · exact le_of_lt (by assumption)
        · exact le_refl _
      · constructor
        · exact le_refl _
        · exact le_of_not_lt (by assumption)
    have hself : (maxItemStep n r).2 ≤ ((rest.foldl maxItemStep (maxItemStep n r)).2) :=
      ih (maxItemStep n r) _ (List.mem_cons_self _ _)
    rcases List.mem_cons.1 hp with h | h
    · subst h
      exact le_trans hstep.1 hself
    · rcases List.mem_cons.1 h with h2 | h2
      · subst h2
        exact le_trans hstep.2 hself
      · exact ih (maxItemStep n r) p (List.mem_cons_of_mem _ h2)

end MultiLingSentiment

namespace MultiLingSentiment

theorem normalize_eq (rs : List (String × ℚ)) :
    normalize_sentiment_labels rs =
      ensureKey (ensureKey (ensureKey (rs.foldl normStep []) "POSITIVE") "NEGATIVE") "NEUTRAL" := rfl

theorem normalize_pos_isSome (rs : List (String × ℚ)) :
    (dictGet (normalize_sentiment_labels rs) "POSITIVE").isSome := by
  rw [normalize_eq]
  have h1 := dictGet_ensureKey_isSome (rs.foldl normStep []) "POSITIVE"
  rw [dictGet_ensureKey_of_isSome _ _ _ (by rw [dictGet_ensureKey_of_isSome _ _ _ h1]; exact h1)]
  rw [dictGet_ensureKey_of_isSome _ _ _ h1]
  exact h1

theorem normalize_neg_isSome (rs : List (String × ℚ)) :
    (dictGet (normalize_sentiment_labels rs) "NEGATIVE").isSome := by
  rw [normalize_eq]
  have h1 := dictGet_ensureKey_isSome (ensureKey (rs.foldl normStep []) "POSITIVE") "NEGATIVE"
  rw [dictGet_ensureKey_of_isSome _ _ _ h1]
  exact h1

theorem normalize_neu_isSome (rs : List (String × ℚ)) :
    (dictGet (normalize_sentiment_labels rs) "NEUTRAL").isSome := by
  rw [normalize_eq]
  exact dictGet_ensureKey_isSome _ "NEUTRAL"

theorem normalize_keys_subset (rs : List (String × ℚ)) :
    ∀ x ∈ (normalize_sentiment_labels rs).map Prod.fst,
      x ∈ ["POSITIVE", "NEGATIVE", "NEUTRAL"] := by
  rw [normalize_eq]
  intro x hx
  rcases mem_keys_ensureKey _ _ _ hx with h | h
  · rcases mem_keys_ensureKey _ _ _ h with h2 | h2
    · rcases mem_keys_ensureKey _ _ _ h2 with h3 | h3
      · rcases mem_keys_normFold rs [] x h3 with h4 | h4
        · simp at h4
        · exact h4
      · simp [h3]
    · simp [h2]
  · simp [h]

theorem normalize_keys_nodup (rs : List (String × ℚ)) :
    ((normalize_sentiment_labels rs).map Prod.fst).Nodup := by
  rw [normalize_eq]
  exact nodup_keys_ensureKey _ _ (nodup_keys_ensureKey _ _ (nodup_keys_ensureKey _ _
    (nodup_keys_normFold rs [] (by simp))))

theorem normalize_sumVals (rs : List (String × ℚ)) :
    sumVals (normalize_sentiment_labels rs) = (rs.map Prod.snd).sum := by
  rw [normalize_eq, sumVals_ensureKey, sumVals_ensureKey, sumVals_ensureKey,
    sumVals_normFold]
  simp [sumVals]

theorem normalize_untouched (rs : List (String × ℚ)) (k : String)
    (hk : k ∈ ["POSITIVE", "NEGATIVE", "NEUTRAL"])
    (h : ∀ r ∈ rs, classifyLabel r.1 ≠ k) :
    dictGet (normalize_sentiment_labels rs) k = some 0 := by
  rw [normalize_eq]
  have hbase : dictGet (rs.foldl normStep []) k = none := by
    rw [dictGet_normFold_untouched rs [] k h]
    simp [dictGet]
  have hk3 : k = "POSITIVE" ∨ k = "NEGATIVE" ∨ k = "NEUTRAL" := by simpa using hk
  rcases hk3 with h1 | h1 | h1
  all_goals subst h1
  · have e1 := dictGet_ensureKey_of_none _ _ hbase
    rw [dictGet_ensureKey_ne _ "NEUTRAL" "POSITIVE" (by decide),
      dictGet_ensureKey_ne _ "NEGATIVE" "POSITIVE" (by decide), e1]
  · have e1 : dictGet (ensureKey (rs.foldl normStep []) "POSITIVE") "NEGATIVE" = none := by
      rw [dictGet_ensureKey_ne _ _ _ (by decide)]
      exact hbase
    have e2 := dictGet_ensureKey_of_none _ _ e1
    rw [dictGet_ensureKey_ne _ "NEUTRAL" "NEGATIVE" (by decide), e2]
  · have e1 : dictGet (ensureKey (ensureKey (rs.foldl normStep []) "POSITIVE") "NEGATIVE") "NEUTRAL" = none := by
      rw [dictGet_ensureKey_ne _ _ _ (by decide), dictGet_ensureKey_ne _ _ _ (by decide)]
      exact hbase
    exact dictGet_ensureKey_of_none _ _ e1

end MultiLingSentiment

namespace MultiLingSentiment

/-- C1: for every list of raw (label, score) pairs, the normalizer output
contains all three canonical keys, the three output values sum to the sum
of the input scores, and a bucket no input label maps to holds exactly
0. -/
theorem C1_normalizer_keys_and_sum (results : List (String × ℚ)) :
    (dictGet (normalize_sentiment_labels results) "POSITIVE").isSome = true ∧
    (dictGet (normalize_sentiment_labels results) "NEGATIVE").isSome = true ∧
    (dictGet (normalize_sentiment_labels results) "NEUTRAL").isSome = true ∧
    (dictGet (normalize_sentiment_labels results) "POSITIVE").getD 0
      + (dictGet (normalize_sentiment_labels results) "NEGATIVE").getD 0
      + (dictGet (normalize_sentiment_labels results) "NEUTRAL").getD 0
      = (results.map Prod.snd).sum ∧
    (∀ k ∈ ["POSITIVE", "NEGATIVE", "NEUTRAL"],
      (∀ r ∈ results, classifyLabel r.1 ≠ k) →
        dictGet (normalize_sentiment_labels results) k = some 0) := by
  refine ⟨normalize_pos_isSome results, normalize_neg_isSome results,
    normalize_neu_isSome results, ?_, normalize_untouched results⟩
  rw [← sumVals_eq_three _ (normalize_keys_subset results) (normalize_keys_nodup results)]
  exact normalize_sumVals results

theorem C1_witness :
    (dictGet (normalize_sentiment_labels [("LABEL_2", (7:ℚ)/10), ("label_0", 3/10)])
        "POSITIVE").isSome = true ∧
    (dictGet (normalize_sentiment_labels [("LABEL_2", (7:ℚ)/10), ("label_0", 3/10)])
        "POSITIVE").getD 0
      + (dictGet (normalize_sentiment_labels [("LABEL_2", (7:ℚ)/10), ("label_0", 3/10)])
        "NEGATIVE").getD 0
      + (dictGet (normalize_sentiment_labels [("LABEL_2", (7:ℚ)/10), ("label_0", 3/10)])
        "NEUTRAL").getD 0 = 1 ∧
    dictGet (normalize_sentiment_labels [("LABEL_2", (7:ℚ)/10), ("label_0", 3/10)])
        "NEUTRAL" = some 0 := by
  have h := C1_normalizer_keys_and_sum [("LABEL_2", (7:ℚ)/10), ("label_0", 3/10)]
  refine ⟨h.1, ?_, h.2.2.2.2 "NEUTRAL" (by simp) ?_⟩
  · rw [h.2.2.2.1]
    with_unfolding_all decide
  · intro r hr
    fin_cases hr <;> with_unfolding_all decide

end MultiLingSentiment

namespace MultiLingSentiment

theorem toNat_ofNat_of_valid (n : Nat) (h : n < 55296) : (Char.ofNat n).toNat = n := by
  rw [Char.ofNat, dif_pos (Or.inl h)]
  rfl

theorem toLower_toUpper_char (c : Char) : c.toUpper.toLower = c.toLower := by
  unfold Char.toUpper Char.toLower
  by_cases h : c.toNat ≥ 97 ∧ c.toNat ≤ 122
  · rw [if_pos h]
    have h1 : (Char.ofNat (c.toNat - 32)).toNat = c.toNat - 32 :=
      toNat_ofNat_of_valid _ (by omega)
    rw [h1, if_pos (by omega : c.toNat - 32 ≥ 65 ∧ c.toNat - 32 ≤ 90),
      if_neg (by omega : ¬(c.toNat ≥ 65 ∧ c.toNat ≤ 90)),
      show c.toNat - 32 + 32 = c.toNat by omega, Char.ofNat_toNat]
  · rw [if_neg h]

theorem toUpper_toLower_char (c : Char) : c.toLower.toUpper = c.toUpper := by
  unfold Char.toUpper Char.toLower
  by_cases h : c.toNat ≥ 65 ∧ c.toNat ≤ 90
  · rw [if_pos h]
    have h1 : (Char.ofNat (c.toNat + 32)).toNat = c.toNat + 32 :=
      toNat_ofNat_of_valid _ (by omega)
    rw [h1, if_pos (by omega : c.toNat + 32 ≥ 97 ∧ c.toNat + 32 ≤ 122),
      if_neg (by omega : ¬(c.toNat ≥ 97 ∧ c.toNat ≤ 122)),
      show c.toNat + 32 - 32 = c.toNat by omega, Char.ofNat_toNat]
  · rw [if_neg h]

theorem pyLower_pyUpper (s : String) : pyLower (pyUpper s) = pyLower s := by
  unfold pyLower pyUpper
  simp only [List.map_map]
  congr 1
  exact List.map_congr_left (fun c _ => toLower_toUpper_char c)

theorem pyUpper_pyLower (s : String) : pyUpper (pyLower s) = pyUpper s := by
  unfold pyLower pyUpper
  simp only [List.map_map]
  congr 1
  exact List.map_congr_left (fun c _ => toUpper_toLower_char c)

/-- Case-insensitive string equality, the natural reading of the
exact-match stage of the matching policy in the spec. -/
def eqIgnoreCase (a b : String) : Bool := pyLower a = pyLower b

/-- Modelled from the spec: the matching policy of the label normalizer,
in priority order — (1) case-insensitive exact match against the fixed
synonym tables, (2) substring fallback on the lowercased raw label
(contains "pos" positive, else contains "neg" negative, else neutral). -/
def classifySpecLabel (rawLabel : String) : String :=
  if ["POSITIVE", "POS", "LABEL_2", "4 STARS", "5 STARS"].any (eqIgnoreCase rawLabel) then
    "POSITIVE"
  else if ["NEGATIVE", "NEG", "LABEL_0", "1 STAR", "2 STARS"].any (eqIgnoreCase rawLabel) then
    "NEGATIVE"
  else if ["NEUTRAL", "NEU", "LABEL_1", "3 STARS"].any (eqIgnoreCase rawLabel) then
    "NEUTRAL"
  else if pyContains "pos" (pyLower rawLabel) then "POSITIVE"
  else if pyContains "neg" (pyLower rawLabel) then "NEGATIVE"
  else "NEUTRAL"

theorem pyUpper_eq_iff (lbl s : String) (hs : pyUpper s = s) :
    pyUpper lbl = s ↔ pyLower lbl = pyLower s := by
  constructor
  · intro h
    rw [← pyLower_pyUpper lbl, h]
  · intro h
    rw [← pyUpper_pyLower lbl, h, pyUpper_pyLower, hs]

theorem mem_syn_iff (lbl : String) (tbl : List String)
    (htbl : ∀ s ∈ tbl, pyUpper s = s) :
    pyUpper lbl ∈ tbl ↔ tbl.any (eqIgnoreCase lbl) = true := by
  simp only [List.any_eq_true, eqIgnoreCase, decide_eq_true_eq]
  constructor
  · intro h
    exact ⟨pyUpper lbl, h, (pyUpper_eq_iff lbl _ (htbl _ h)).1 rfl⟩
  · rintro ⟨s, hs, heq⟩
    rw [(pyUpper_eq_iff lbl s (htbl s hs)).2 heq]
    exact hs

theorem contains_positive_imp (l : String) :
    pyContains "positive" l = true → pyContains "pos" l = true := by
  unfold pyContains
  simp only [decide_eq_true_eq]
  intro h
  exact List.IsInfix.trans (by decide) h

theorem contains_negative_imp (l : String) :
    pyContains "negative" l = true → pyContains "neg" l = true := by
  unfold pyContains
  simp only [decide_eq_true_eq]
  intro h
  exact List.IsInfix.trans (by decide) h

theorem or_collapse (a b : Bool) (h : a = true → b = true) : (a || b) = b := by
  cases a with
  | false => simp
  | true => simp [h rfl]

end MultiLingSentiment

namespace MultiLingSentiment

theorem pos_syn_iff (lbl : String) :
    pyUpper lbl ∈ ["POSITIVE", "POS", "LABEL_2", "5 STARS", "4 STARS"] ↔
      ["POSITIVE", "POS", "LABEL_2", "4 STARS", "5 STARS"].any (eqIgnoreCase lbl) = true := by
  refine (mem_syn_iff lbl _ (by decide)).trans ?_
  simp only [List.any_eq_true]
  constructor
  · rintro ⟨s, hs, h⟩
    refine ⟨s, ?_, h⟩
    fin_cases hs <;> simp
  · rintro ⟨s, hs, h⟩
    refine ⟨s, ?_, h⟩
    fin_cases hs <;> simp

theorem neg_syn_iff (lbl : String) :
    pyUpper lbl ∈ ["NEGATIVE", "NEG", "LABEL_0", "1 STAR", "2 STARS"] ↔
      ["NEGATIVE", "NEG", "LABEL_0", "1 STAR", "2 STARS"].any (eqIgnoreCase lbl) = true :=
  mem_syn_iff lbl _ (by decide)

theorem neu_syn_iff (lbl : String) :
    pyUpper lbl ∈ ["NEUTRAL", "NEU", "LABEL_1", "3 STARS"] ↔
      ["NEUTRAL", "NEU", "LABEL_1", "3 STARS"].any (eqIgnoreCase lbl) = true :=
  mem_syn_iff lbl _ (by decide)

theorem classifyLabel_eq_spec (lbl : String) :
    classifyLabel lbl = classifySpecLabel lbl := by
  have hc4 : (pyContains "positive" (pyLower (pyUpper lbl))
      || pyContains "pos" (pyLower (pyUpper lbl))) = pyContains "pos" (pyLower lbl) := by
    rw [pyLower_pyUpper]
    exact or_collapse _ _ (contains_positive_imp _)
  have hc5 : (pyContains "negative" (pyLower (pyUpper lbl))
      || pyContains "neg" (pyLower (pyUpper lbl))) = pyContains "neg" (pyLower lbl) := by
    rw [pyLower_pyUpper]
    exact or_collapse _ _ (contains_negative_imp _)
  unfold classifyLabel classifySpecLabel
  simp only []
  by_cases h1 : pyUpper lbl ∈ ["POSITIVE", "POS", "LABEL_2", "5 STARS", "4 STARS"]
  · rw [if_pos h1, if_pos ((pos_syn_iff lbl).1 h1)]
  · rw [if_neg h1, if_neg (fun hs => h1 ((pos_syn_iff lbl).2 hs))]
    by_cases h2 : pyUpper lbl ∈ ["NEGATIVE", "NEG", "LABEL_0", "1 STAR", "2 STARS"]
    · rw [if_pos h2, if_pos ((neg_syn_iff lbl).1 h2)]
    · rw [if_neg h2, if_neg (fun hs => h2 ((neg_syn_iff lbl).2 hs))]
      by_cases h3 : pyUpper lbl ∈ ["NEUTRAL", "NEU", "LABEL_1", "3 STARS"]
      · rw [if_pos h3, if_pos ((neu_syn_iff lbl).1 h3)]
      · rw [if_neg h3, if_neg (fun hs => h3 ((neu_syn_iff lbl).2 hs))]
        by_cases h4 : pyContains "pos" (pyLower lbl) = true
        · rw [if_pos (by rw [hc4]; exact h4), if_pos h4]
        · rw [if_neg (by rw [hc4]; exact h4), if_neg h4]
          by_cases h5 : pyContains "neg" (pyLower lbl) = true
          · rw [if_pos (by rw [hc5]; exact h5), if_pos h5]
          · rw [if_neg (by rw [hc5]; exact h5), if_neg h5]

end MultiLingSentiment

namespace MultiLingSentiment

/-- C2: every (raw label, score) pair is routed whole by the documented
two-stage policy: the code classification agrees with the spec policy on
every raw label, and normalizing a singleton input assigns 100% of the
score to that bucket and 0 to the other two canonical buckets. -/
theorem C2_routing_policy (lbl : String) (score : ℚ) :
    classifyLabel lbl = classifySpecLabel lbl ∧
    dictGet (normalize_sentiment_labels [(lbl, score)]) (classifySpecLabel lbl) = some score ∧
    (∀ k ∈ ["POSITIVE", "NEGATIVE", "NEUTRAL"], k ≠ classifySpecLabel lbl →
      dictGet (normalize_sentiment_labels [(lbl, score)]) k = some 0) := by
  have hkey : classifyLabel lbl = classifySpecLabel lbl := classifyLabel_eq_spec lbl
  refine ⟨hkey, ?_, ?_⟩
  · rw [← hkey]
    have hbase : dictGet ([(lbl, score)].foldl normStep []) (classifyLabel lbl)
        = some score := by
      simp [normStep, dictGet, dictSet]
    rw [normalize_eq]
    have h1 : dictGet (ensureKey ([(lbl, score)].foldl normStep []) "POSITIVE")
        (classifyLabel lbl) = some score := by
      rw [dictGet_ensureKey_of_isSome _ _ _ (by rw [hbase]; rfl)]
      exact hbase
    have h2 : dictGet (ensureKey (ensureKey ([(lbl, score)].foldl normStep []) "POSITIVE")
        "NEGATIVE") (classifyLabel lbl) = some score := by
      rw [dictGet_ensureKey_of_isSome _ _ _ (by rw [h1]; rfl)]
      exact h1
    rw [dictGet_ensureKey_of_isSome _ _ _ (by rw [h2]; rfl)]
    exact h2
  · intro k hk hkne
    refine normalize_untouched [(lbl, score)] k hk ?_
    intro r hr
    have hr2 : r = (lbl, score) := by simpa using hr
    rw [hr2, hkey]
    exact fun hh => hkne hh.symm

theorem C2_witness :
    dictGet (normalize_sentiment_labels [("3 stars", (2:ℚ)/5)])
      (classifySpecLabel "3 stars") = some (2/5) ∧
    dictGet (normalize_sentiment_labels [("3 stars", (2:ℚ)/5)]) "POSITIVE" = some 0 :=
  ⟨(C2_routing_policy "3 stars" (2/5)).2.1,
   (C2_routing_policy "3 stars" (2/5)).2.2 "POSITIVE" (by simp)
     (by with_unfolding_all decide)⟩

end MultiLingSentiment

namespace MultiLingSentiment

theorem dictGet_mem {α : Type} (d : List (String × α)) (k : String) (v : α)
    (h : dictGet d k = some v) : ∃ p ∈ d, p.2 = v ∧ p.1 = k := by
  unfold dictGet at h
  cases hf : d.find? (fun kv => kv.1 = k) with
  | none => rw [hf] at h; cases h
  | some p =>
    rw [hf] at h
    have hm := List.mem_of_find?_eq_some hf
    have hp := List.find?_some hf
    exact ⟨p, hm, by simpa using h, by simpa using hp⟩

/-- C3: on every non-blank input text on which the underlying classifier
succeeds with a non-empty result list, analyze_sentiment returns as
sentiment a canonical key of the accumulated normalized score mapping
whose score is maximal among all buckets, and returns as confidence that
bucket score multiplied by 100. -/
theorem C3_max_selection (classifier : String → Option (List (String × ℚ)))
    (text : String) (results : List (String × ℚ))
    (hblank : pyStrip text ≠ "") (hres : results ≠ [])
    (hcls : classifier (truncInput text) = some results) :
    (analyze_sentiment classifier text).sentiment ∈ ["POSITIVE", "NEGATIVE", "NEUTRAL"] ∧
    (analyze_sentiment classifier text).all_scores = normalize_sentiment_labels results ∧
    (∃ v, dictGet (normalize_sentiment_labels results)
        (analyze_sentiment classifier text).sentiment = some v ∧
      (analyze_sentiment classifier text).confidence = v * 100 ∧
      ∀ k w, dictGet (normalize_sentiment_labels results) k = some w → w ≤ v) := by
  have htext : text ≠ "" := fun h => hblank (by rw [h]; rfl)
  obtain ⟨r0, rs, rfl⟩ : ∃ a l, results = a :: l := by
    cases results with
    | nil => exact absurd rfl hres
    | cons a l => exact ⟨a, l, rfl⟩
  cases hd : normalize_sentiment_labels (r0 :: rs) with
  | nil =>
    have hpos := normalize_pos_isSome (r0 :: rs)
    rw [hd] at hpos
    simp [dictGet] at hpos
  | cons n ns =>
    have heq : analyze_sentiment classifier text =
        { sentiment := (ns.foldl maxItemStep n).1
          confidence := (ns.foldl maxItemStep n).2 * 100
          all_scores := n :: ns
          error := none } := by
      unfold analyze_sentiment
      rw [if_neg (by simp [htext, hblank]), hcls]
      simp only [hd]
    have hmem : ns.foldl maxItemStep n ∈ n :: ns := foldl_maxItemStep_mem n ns
    have hge := foldl_maxItemStep_ge n ns
    have hnodup := normalize_keys_nodup (r0 :: rs)
    rw [hd] at hnodup
    have hsub := normalize_keys_subset (r0 :: rs)
    rw [hd] at hsub
    rw [heq]
    exact ⟨hsub _ (List.mem_map.2 ⟨_, hmem, rfl⟩), rfl,
      (ns.foldl maxItemStep n).2, dictGet_of_mem (n :: ns) _ hmem hnodup, rfl,
      fun k w hw => by
        obtain ⟨p, hp, hpv, hpk⟩ := dictGet_mem _ _ _ hw
        rw [← hpv]
        exact hge p hp⟩

theorem C3_witness :
    (analyze_sentiment (fun _ => some [("LABEL_0", (3:ℚ)/5), ("LABEL_2", 2/5)])
        "hello").sentiment ∈ ["POSITIVE", "NEGATIVE", "NEUTRAL"] ∧
    (analyze_sentiment (fun _ => some [("LABEL_0", (3:ℚ)/5), ("LABEL_2", 2/5)])
        "hello").all_scores
      = normalize_sentiment_labels [("LABEL_0", (3:ℚ)/5), ("LABEL_2", 2/5)] ∧
    (∃ v, dictGet (normalize_sentiment_labels [("LABEL_0", (3:ℚ)/5), ("LABEL_2", 2/5)])
        (analyze_sentiment (fun _ => some [("LABEL_0", (3:ℚ)/5), ("LABEL_2", 2/5)])
          "hello").sentiment = some v ∧
      (analyze_sentiment (fun _ => some [("LABEL_0", (3:ℚ)/5), ("LABEL_2", 2/5)])
          "hello").confidence = v * 100 ∧
      ∀ k w, dictGet (normalize_sentiment_labels [("LABEL_0", (3:ℚ)/5), ("LABEL_2", 2/5)]) k
        = some w → w ≤ v) :=
  C3_max_selection (fun _ => some [("LABEL_0", (3:ℚ)/5), ("LABEL_2", 2/5)]) "hello"
    [("LABEL_0", (3:ℚ)/5), ("LABEL_2", 2/5)] (by decide) (by simp) rfl

end MultiLingSentiment

namespace MultiLingSentiment

/-- C4: for every non-empty input, the fallback classifier counts the
configured positive and negative keywords contained in the lowercased
text and decides by comparing the counts, with confidence
min(90, 60 + 10 x (difference)) on a strict majority and exactly 50 on a
tie; the two documented examples evaluate as stated. -/
theorem C4_fallback_contract :
    (∀ text : String, text ≠ "" →
      (positiveCount text > negativeCount text →
        simple_sentiment_analysis text =
          { sentiment := "POSITIVE"
            confidence := ((min 90 (60 + (positiveCount text - negativeCount text) * 10) : ℕ) : ℚ)
            positive_score := some (positiveCount text)
            negative_score := some (negativeCount text) }) ∧
      (negativeCount text > positiveCount text →
        simple_sentiment_analysis text =
          { sentiment := "NEGATIVE"
            confidence := ((min 90 (60 + (negativeCount text - positiveCount text) * 10) : ℕ) : ℚ)
            positive_score := some (positiveCount text)
            negative_score := some (negativeCount text) }) ∧
      (positiveCount text = negativeCount text →
        simple_sentiment_analysis text =
          { sentiment := "NEUTRAL"
            confidence := 50
            positive_score := some (positiveCount text)
            negative_score := some (negativeCount text) })) ∧
    simple_sentiment_analysis "This is good and great" =
      { sentiment := "POSITIVE", confidence := 80,
        positive_score := some 2, negative_score := some 0 } ∧
    simple_sentiment_analysis "bad and terrible" =
      { sentiment := "NEGATIVE", confidence := 80,
        positive_score := some 0, negative_score := some 2 } := by
  refine ⟨?_, ?_, ?_⟩
  · intro text htext
    refine ⟨?_, ?_, ?_⟩
    · intro hpos
      unfold simple_sentiment_analysis
      rw [if_neg htext, if_pos hpos]
    · intro hneg
      unfold simple_sentiment_analysis
      rw [if_neg htext, if_neg (by omega : ¬positiveCount text > negativeCount text),
        if_pos hneg]
    · intro heq
      unfold simple_sentiment_analysis
      rw [if_neg htext, if_neg (by omega : ¬positiveCount text > negativeCount text),
        if_neg (by omega : ¬negativeCount text > positiveCount text)]
  · with_unfolding_all decide
  · with_unfolding_all decide

theorem C4_witness :
    simple_sentiment_analysis "happy" =
      { sentiment := "POSITIVE"
        confidence := ((min 90 (60 + (positiveCount "happy" - negativeCount "happy") * 10) : ℕ) : ℚ)
        positive_score := some (positiveCount "happy")
        negative_score := some (negativeCount "happy") } :=
  (C4_fallback_contract.1 "happy" (by decide)).1 (by decide)

end MultiLingSentiment

namespace MultiLingSentiment

theorem toLower_ws (c : Char) (h : c.isWhitespace = true) : c.toLower = c := by
  unfold Char.isWhitespace at h
  simp only [Bool.or_eq_true, decide_eq_true_eq] at h
  rcases h with ((h | h) | h) | h
  all_goals subst h
  all_goals decide

theorem pyStrip_eq_empty (text : String) (hws : ∀ c ∈ text.data, c.isWhitespace = true) :
    pyStrip text = "" := by
  unfold pyStrip
  have h1 : text.data.dropWhile Char.isWhitespace = [] :=
    List.dropWhile_eq_nil_iff.2 hws
  rw [h1]
  rfl

theorem contains_false_of_ws (w : String) (text : String)
    (hws : ∀ c ∈ text.data, c.isWhitespace = true)
    (hw : ∃ c ∈ w.data, ¬ c.isWhitespace = true) :
    pyContains w (pyLower text) = false := by
  unfold pyContains pyLower
  simp only [decide_eq_false_iff_not]
  intro hinf
  obtain ⟨c, hc, hcw⟩ := hw
  have hmem : c ∈ text.data.map Char.toLower := hinf.subset hc
  obtain ⟨c0, hc0, rfl⟩ := List.mem_map.1 hmem
  rw [toLower_ws c0 (hws c0 hc0)] at hcw
  exact hcw (hws c0 hc0)

theorem positiveCount_ws (text : String)
    (hws : ∀ c ∈ text.data, c.isWhitespace = true) : positiveCount text = 0 := by
  unfold positiveCount
  rw [List.countP_eq_zero]
  intro w hw
  have hall : ∀ u ∈ positive_words, ∃ c ∈ u.data, ¬ c.isWhitespace = true := by decide
  simp only [Bool.not_eq_true]
  exact contains_false_of_ws w text hws (hall w hw)

theorem negativeCount_ws (text : String)
    (hws : ∀ c ∈ text.data, c.isWhitespace = true) : negativeCount text = 0 := by
  unfold negativeCount
  rw [List.countP_eq_zero]
  intro w hw
  have hall : ∀ u ∈ negative_words, ∃ c ∈ u.data, ¬ c.isWhitespace = true := by decide
  simp only [Bool.not_eq_true]
  exact contains_false_of_ws w text hws (hall w hw)

/-- C5 counterexample: on the whitespace-only input " " the fallback
classifier does not short-circuit (its guard only tests emptiness), so it
returns NEUTRAL with confidence 50, not 0, refuting the claim for
whitespace-only inputs. -/
theorem C5_counterexample :
    (simple_sentiment_analysis " ").sentiment = "NEUTRAL" ∧
    (simple_sentiment_analysis " ").confidence = 50 ∧
    ¬ (simple_sentiment_analysis " ").confidence = 0 := by
  refine ⟨?_, ?_, ?_⟩
  all_goals with_unfolding_all decide

/-- C5 (amended): on empty or whitespace-only text the full classifier
returns NEUTRAL, confidence 0, all_scores (0, 0, 1) and an error message
describing the empty input; the fallback classifier returns NEUTRAL with
confidence 0 only on the empty string, and on whitespace-only non-empty
text it proceeds to keyword counting and returns NEUTRAL with
confidence 50. -/
theorem C5_blank_inputs (classifier : String → Option (List (String × ℚ)))
    (text : String) (hws : ∀ c ∈ text.data, c.isWhitespace = true) :
    analyze_sentiment classifier text =
      { sentiment := "NEUTRAL", confidence := 0
        all_scores := [("POSITIVE", 0), ("NEGATIVE", 0), ("NEUTRAL", 1)]
        error := some "Empty text provided" } ∧
    (text = "" → simple_sentiment_analysis text =
      { sentiment := "NEUTRAL", confidence := 0
        positive_score := none, negative_score := none }) ∧
    (text ≠ "" → simple_sentiment_analysis text =
      { sentiment := "NEUTRAL", confidence := 50
        positive_score := some 0, negative_score := some 0 }) := by
  refine ⟨?_, ?_, ?_⟩
  · unfold analyze_sentiment
    rw [if_pos (by simp [pyStrip_eq_empty text hws])]
    rfl
  · intro h
    subst h
    rfl
  · intro htext
    unfold simple_sentiment_analysis
    rw [if_neg htext]
    rw [positiveCount_ws text hws, negativeCount_ws text hws]
    rfl

theorem C5_witness :
    analyze_sentiment (fun _ => none) " " =
      { sentiment := "NEUTRAL", confidence := 0
        all_scores := [("POSITIVE", 0), ("NEGATIVE", 0), ("NEUTRAL", 1)]
        error := some "Empty text provided" } ∧
    simple_sentiment_analysis " " =
      { sentiment := "NEUTRAL", confidence := 50
        positive_score := some 0, negative_score := some 0 } :=
  ⟨(C5_blank_inputs (fun _ => none) " " (by decide)).1,
   (C5_blank_inputs (fun _ => none) " " (by decide)).2.2 (by decide)⟩

end MultiLingSentiment

namespace MultiLingSentiment

/-- C6: in the fallback language detector, a script class whose character
count strictly exceeds both others wins with confidence equal to its count
divided by the total of the three counts times 100, and when all three
counts are zero the result is Unknown with confidence 0. -/
theorem C6_script_plurality (text : String) :
    (englishChars text + hindiChars text + teluguChars text = 0 →
      detect_language_simple text = { language := "Unknown", confidence := 0 }) ∧
    (hindiChars text > englishChars text ∧ hindiChars text > teluguChars text →
      detect_language_simple text =
        { language := "Hindi"
          confidence := ((hindiChars text : ℚ)
            / ((englishChars text + hindiChars text + teluguChars text : ℕ) : ℚ)) * 100 }) ∧
    (teluguChars text > englishChars text ∧ teluguChars text > hindiChars text →
      detect_language_simple text =
        { language := "Telugu"
          confidence := ((teluguChars text : ℚ)
            / ((englishChars text + hindiChars text + teluguChars text : ℕ) : ℚ)) * 100 }) ∧
    (englishChars text > hindiChars text ∧ englishChars text > teluguChars text →
      detect_language_simple text =
        { language := "English"
          confidence := ((englishChars text : ℚ)
            / ((englishChars text + hindiChars text + teluguChars text : ℕ) : ℚ)) * 100 }) := by
  by_cases htext : text = ""
  · subst htext
    refine ⟨fun _ => rfl, ?_, ?_, ?_⟩
    all_goals intro h
    all_goals exact absurd h.1 (by decide)
  · refine ⟨?_, ?_, ?_, ?_⟩
    · intro h0
      unfold detect_language_simple
      rw [if_neg htext, if_pos h0]
    · intro h
      unfold detect_language_simple
      rw [if_neg htext, if_neg (by omega :
          ¬ englishChars text + hindiChars text + teluguChars text = 0), if_pos h]
    · intro h
      unfold detect_language_simple
      rw [if_neg htext, if_neg (by omega :
          ¬ englishChars text + hindiChars text + teluguChars text = 0),
        if_neg (by rintro ⟨h1, h2⟩; omega :
          ¬ (hindiChars text > englishChars text ∧ hindiChars text > teluguChars text)),
        if_pos h]
    · intro h
      unfold detect_language_simple
      rw [if_neg htext, if_neg (by omega :
          ¬ englishChars text + hindiChars text + teluguChars text = 0),
        if_neg (by rintro ⟨h1, h2⟩; omega :
          ¬ (hindiChars text > englishChars text ∧ hindiChars text > teluguChars text)),
        if_neg (by rintro ⟨h1, h2⟩; omega :
          ¬ (teluguChars text > englishChars text ∧ teluguChars text > hindiChars text))]

theorem C6_witness :
    detect_language_simple "ab" =
      { language := "English"
        confidence := ((englishChars "ab" : ℚ)
          / ((englishChars "ab" + hindiChars "ab" + teluguChars "ab" : ℕ) : ℚ)) * 100 } :=
  (C6_script_plurality "ab").2.2.2 ⟨by decide, by decide⟩

end MultiLingSentiment

namespace MultiLingSentiment

/-- C7: batch analysis rejects a CSV none of whose column names contains
"text" case-insensitively, before processing any row and with no partial
output; otherwise the first such column in column order is the one used
for every row. -/
theorem C7_csv_text_column (detector classifier : String → Option (List (String × ℚ)))
    (cols : List String) (rows : List (List (String × String))) :
    ((∀ c ∈ cols, ¬ pyContains "text" (pyLower c) = true) →
      analyze_batch_text detector classifier cols rows = none) ∧
    (∀ c ∈ cols, pyContains "text" (pyLower c) = true →
      ∃ chosen pre post, cols = pre ++ chosen :: post ∧
        pyContains "text" (pyLower chosen) = true ∧
        (∀ x ∈ pre, ¬ pyContains "text" (pyLower x) = true) ∧
        analyze_batch_text detector classifier cols rows =
          some (rows.map (fun row =>
            batchRowOf detector classifier ((dictGet row chosen).getD "")))) := by
  constructor
  · intro hnone
    unfold analyze_batch_text
    rw [show textColumns cols = [] from List.filter_eq_nil_iff.2 hnone]
  · intro c hc hp
    cases hf : textColumns cols with
    | nil =>
      exact absurd (List.mem_filter.2 ⟨hc, hp⟩) (by rw [← textColumns, hf]; simp [textColumns])
    | cons chosen rest =>
      obtain ⟨pre, post, hsplit, hpre, hchosen, _⟩ := List.filter_eq_cons_iff.1 hf
      refine ⟨chosen, pre, post, hsplit, hchosen, hpre, ?_⟩
      unfold analyze_batch_text
      rw [hf]

theorem C7_witness :
    analyze_batch_text (fun _ => none) (fun _ => none) ["id", "name"]
        [[("id", "1"), ("name", "a")]] = none :=
  (C7_csv_text_column (fun _ => none) (fun _ => none) ["id", "name"]
    [[("id", "1"), ("name", "a")]]).1 (by decide)

end MultiLingSentiment

namespace MultiLingSentiment

theorem supported_isSome_iff (k : String) :
    (dictGet supported_languages k).isSome = true ↔ k ∈ ["en", "hi", "te"] := by
  rw [dictGet_isSome_iff]
  simp [supported_languages]

/-- C8: for every input, analyze_sentiment and detect_language return a
total result that is either a success (error absent) or the documented
degraded shape: NEUTRAL, confidence 0 and the neutral-only distribution
with a populated error for sentiment; Unknown, confidence 0, unsupported
with a populated error for language. -/
theorem C8_graceful_degradation (classifier detector : String → Option (List (String × ℚ)))
    (text : String) :
    ((analyze_sentiment classifier text).error = none ∨
      ((analyze_sentiment classifier text).sentiment = "NEUTRAL" ∧
       (analyze_sentiment classifier text).confidence = 0 ∧
       (analyze_sentiment classifier text).all_scores
         = [("POSITIVE", 0), ("NEGATIVE", 0), ("NEUTRAL", 1)] ∧
       (analyze_sentiment classifier text).error.isSome = true)) ∧
    ((detect_language detector text).error = none ∨
      ((detect_language detector text).language = "Unknown" ∧
       (detect_language detector text).language_code = "unknown" ∧
       (detect_language detector text).confidence = 0 ∧
       (detect_language detector text).is_supported = false ∧
       (detect_language detector text).error.isSome = true)) := by
  constructor
  · unfold analyze_sentiment
    split
    · exact Or.inr ⟨rfl, rfl, rfl, rfl⟩
    · split
      · exact Or.inr ⟨rfl, rfl, rfl, rfl⟩
      · exact Or.inr ⟨rfl, rfl, rfl, rfl⟩
      · split
        · exact Or.inr ⟨rfl, rfl, rfl, rfl⟩
        · exact Or.inl rfl
  · unfold detect_language
    split
    · exact Or.inr ⟨rfl, rfl, rfl, rfl, rfl⟩
    · split
      · exact Or.inr ⟨rfl, rfl, rfl, rfl, rfl⟩
      · exact Or.inr ⟨rfl, rfl, rfl, rfl, rfl⟩
      · exact Or.inl rfl

/-- C9: the is_supported field of the language result is true exactly when
detection succeeded and the detected code is one of en, hi, te; empty
input and every failure path yield is_supported false. -/
theorem C9_is_supported_iff (detector : String → Option (List (String × ℚ)))
    (text : String) :
    (detect_language detector text).is_supported = true ↔
      ((detect_language detector text).error = none ∧
        (detect_language detector text).language_code ∈ ["en", "hi", "te"]) := by
  unfold detect_language
  split
  · simp [degradedLanguageResult]
  · split
    · simp [degradedLanguageResult]
    · simp [degradedLanguageResult]
    · simpa using supported_isSome_iff _

/-- C10: the fallback classifier result shape depends on the input: on
every non-empty text the positive_score and negative_score keys are
present (carrying the two keyword counts), while on the empty string they
are absent. -/
theorem C10_result_shape :
    (∀ text : String, text ≠ "" →
      (simple_sentiment_analysis text).positive_score = some (positiveCount text) ∧
      (simple_sentiment_analysis text).negative_score = some (negativeCount text)) ∧
    (simple_sentiment_analysis "").positive_score = none ∧
    (simple_sentiment_analysis "").negative_score = none := by
  refine ⟨?_, rfl, rfl⟩
  intro text htext
  unfold simple_sentiment_analysis
  rw [if_neg htext]
  simp only []
  constructor
  · split
    · rfl
    split
    · rfl
    · rfl
  · split
    · rfl
    split
    · rfl
    · rfl

theorem C10_witness :
    (simple_sentiment_analysis "hi").positive_score = some (positiveCount "hi") ∧
    (simple_sentiment_analysis "hi").negative_score = some (negativeCount "hi") :=
  C10_result_shape.1 "hi" (by decide)

end MultiLingSentiment
